import Mathlib

/-!
Verification of the authentication core of the jewellery-inventory backend
(`src/backend/auth.py`, with the data model in `src/backend/models.py`).

The embedding is shallow: timestamps are integers (unix seconds), the JWT
library is modelled as a pair/record of (claims payload, signing key) with a
decoder that checks the key and the `exp` claim, and the bcrypt library is
modelled with an explicit salt parameter, an injective digest function, and a
string serialisation that embeds the salt.  Python dictionaries of claims are
association lists with unique keys kept by `setClaim`/`getClaim`.
-/

/-- JSON-style claim values appearing in token payloads: strings
(e.g. `sub`, `role`) and integers (e.g. `exp`). -/
inductive JValue where
  | str (s : String)
  | num (n : Int)
deriving DecidableEq, Repr

/-- Python truthiness of a claim value: `""` and `0` are falsy
(`if not username:` in `get_current_user`). -/
def JValue.falsy : JValue → Bool
  | .str s => s = ""
  | .num n => n = 0

/-- A claims dictionary, as an association list (first occurrence wins,
and `setClaim` keeps keys unique as a Python dict does). -/
abbrev Claims := List (String × JValue)

/-- `d[k]` lookup: `payload.get(k)` returning `none` when absent. -/
def getClaim (cs : Claims) (k : String) : Option JValue :=
  (cs.find? (fun p => p.1 = k)).map (·.2)

/-- `d.update({k: v})` on a Python dict: replace the value in place when the
key is present, append otherwise. -/
def setClaim (cs : Claims) (k : String) (v : JValue) : Claims :=
  if cs.any (fun p => p.1 = k) then
    cs.map (fun p => if p.1 = k then (k, v) else p)
  else
    cs ++ [(k, v)]

/-- `UserRole` from `models.py`: the closed role enumeration. -/
inductive UserRole where
  | ADMIN
  | MANAGER
  | SALESPERSON
deriving DecidableEq, Repr

/-- `.value` of a `UserRole` member (its wire string). -/
def UserRole.value : UserRole → String
  | .ADMIN => "admin"
  | .MANAGER => "manager"
  | .SALESPERSON => "salesperson"

/-- `User` from `models.py` (timestamps as unix seconds). -/
structure User where
  id : String
  username : String
  email : String
  hashed_password : String
  role : UserRole
  created_at : Int
deriving DecidableEq, Repr

/-- `HTTPException(status_code, detail)` as raised by `auth.py`. -/
structure HTTPException where
  status_code : Nat
  detail : String
deriving DecidableEq, Repr

/-- A serialized signed token, modelling `jwt.encode(payload, key, HS256)`:
the payload together with the key that signed it (the signature check of
`jwt.decode` is modelled as comparison of signing keys). -/
structure Token where
  payload : Claims
  signingKey : String
deriving DecidableEq, Repr

/-- `ACCESS_TOKEN_EXPIRE_MINUTES = 60 * 24` from `auth.py`. -/
def ACCESS_TOKEN_EXPIRE_MINUTES : Int := 60 * 24

/-- Python's `expires_delta or default` on line 35: `or` tests truthiness,
so both `None` and the falsy `timedelta(0)` fall back to the default, while
any nonzero timedelta is kept. -/
def pyOrDefault (expires_delta : Option Int) (default : Int) : Int :=
  match expires_delta with
  | some d => if d = 0 then default else d
  | none => default

/-- `create_access_token(data, expires_delta)` from `auth.py` lines 32-37:
copies `data`, computes `expire = now + (expires_delta or default)` (the
`or` with Python truthiness: an absent or zero delta means the 24-hour
default) and overwrites the `exp` claim, then signs with the process key.
`now` (the wall clock) and the signing key are explicit parameters;
durations are seconds. -/
def create_access_token (data : Claims) (expires_delta : Option Int)
    (now : Int) (key : String) : Token :=
  let delta := pyOrDefault expires_delta (ACCESS_TOKEN_EXPIRE_MINUTES * 60)
  let expire := now + delta
  let to_encode := setClaim data "exp" (.num expire)
  ⟨to_encode, key⟩

/-- The two error kinds `jwt.decode` can raise here. -/
inductive JwtError where
  | expiredSignature
  | invalidToken
deriving DecidableEq, Repr

/-- `jwt.decode(token, key, algorithms=[HS256])`: a signature mismatch raises
`InvalidTokenError` before any claim validation; then an `exp` claim strictly
in the past raises `ExpiredSignatureError`; otherwise the payload is
returned.  A non-numeric `exp` raises `DecodeError` (an `InvalidTokenError`). -/
def jwt_decode (tok : Token) (key : String) (now : Int) :
    Except JwtError Claims :=
  if tok.signingKey ≠ key then .error .invalidToken
  else
    match getClaim tok.payload "exp" with
    | some (.num exp) =>
        if exp < now then .error .expiredSignature else .ok tok.payload
    | some (.str _) => .error .invalidToken
    | none => .ok tok.payload

/-- `decode_access_token(token)` from `auth.py` lines 40-48: translates the
two JWT error kinds into 401 responses. -/
def decode_access_token (tok : Token) (key : String) (now : Int) :
    Except HTTPException Claims :=
  match jwt_decode tok key now with
  | .ok payload => .ok payload
  | .error .expiredSignature => .error ⟨401, "Token has expired"⟩
  | .error .invalidToken => .error ⟨401, "Invalid token"⟩

/-- The user store: `db.users`, with `find_one({"username": u})` modelled as
the first record whose `username` field equals the queried value.  A
non-string query value matches no record (usernames are strings). -/
abbrev UserDb := List User

/-- `db.users.find_one({"username": v})` for a claim value `v`. -/
def find_one_username (db : UserDb) (v : JValue) : Option User :=
  db.find? (fun u => JValue.str u.username = v)

/-- `get_current_user(request, credentials)` from `auth.py` lines 51-66:
decode the token, read the `sub` claim, reject falsy/absent subjects with
401 "Invalid token payload", look the username up in the store, reject a
missing record with 401 "User not found", else return the stored record. -/
def get_current_user (db : UserDb) (tok : Token) (key : String) (now : Int) :
    Except HTTPException User :=
  match decode_access_token tok key now with
  | .error e => .error e
  | .ok payload =>
    match getClaim payload "sub" with
    | none => .error ⟨401, "Invalid token payload"⟩
    | some username =>
      if username.falsy then .error ⟨401, "Invalid token payload"⟩
      else
        match find_one_username db username with
        | none => .error ⟨401, "User not found"⟩
        | some user_data => .ok user_data

/-- The f-string detail of the 403 response in `require_role`:
`f"Access denied. Required roles: \x7b[role.value for role in allowed_roles]\x7d"`,
i.e. the Python repr of the list of role value strings. -/
def forbiddenDetail (allowed_roles : List UserRole) : String :=
  "Access denied. Required roles: [" ++
    String.intercalate ", "
      (allowed_roles.map (fun role => "'" ++ role.value ++ "'")) ++ "]"

/-- The checker returned by `require_role(*allowed_roles)` (`auth.py` lines
69-85): resolve the current user, then raise 403 with the allowed-role list
when the user's role is not a member, else return the user. -/
def require_role (allowed_roles : List UserRole) (db : UserDb) (tok : Token)
    (key : String) (now : Int) : Except HTTPException User :=
  match get_current_user db tok key now with
  | .error e => .error e
  | .ok user =>
    if user.role ∉ allowed_roles then
      .error ⟨403, forbiddenDetail allowed_roles⟩
    else
      .ok user

/-! ## The bcrypt model (Credential Hasher)

`hash_password`/`verify_password` call the bcrypt library, which is outside
the repository.  It is modelled faithfully to its documented behaviour: the
salt is drawn by `gensalt` (randomness is made explicit as a salt
parameter), `hashpw` emits a string embedding the salt and the derived
digest, `checkpw` parses the embedded salt back out, recomputes the digest
and compares — and raises `ValueError` (modelled as `Except.error ()`) when
the hashed form does not parse as a bcrypt string.  The key-derivation
function is modelled as an ideal (collision-free) digest: injective in the
password for a fixed salt, and dependent on the salt. -/

/-- A parsed bcrypt hash: the embedded salt and the derived digest. -/
structure BcryptHash where
  salt : Nat
  digest : String
deriving DecidableEq, Repr

/-- The modelled key-derivation function: injective in the password for any
fixed salt, and varying with the salt (an idealisation of the bcrypt KDF). -/
def bcryptKdf (password : String) (salt : Nat) : String :=
  ⟨password.data.reverse ++ List.replicate salt 'x'⟩

/-- Serialisation of a bcrypt hash: the `$2b$` prefix, the salt section,
a separator, then the digest (standing in for bcrypt's radix-64 format). -/
def serializeBcrypt (h : BcryptHash) : String :=
  ⟨'$' :: '2' :: 'b' :: '$' ::
    (List.replicate h.salt 'a' ++ '$' :: h.digest.data)⟩

/-- Salt-section parser: counts the salt run, then takes the remainder as
the digest.  Fails on any other shape. -/
def parseSaltRun : List Char → Nat → Option BcryptHash
  | 'a' :: rest, n => parseSaltRun rest (n + 1)
  | '$' :: rest, n => some ⟨n, ⟨rest⟩⟩
  | _, _ => none

/-- Parser for the bcrypt string format, matching `serializeBcrypt`:
anything without the `$2b$` prefix or a well-formed salt section is
malformed (bcrypt raises `ValueError: Invalid salt`). -/
def parseBcrypt : List Char → Option BcryptHash
  | '$' :: '2' :: 'b' :: '$' :: rest => parseSaltRun rest 0
  | _ => none

/-- `bcrypt.hashpw(password, salt)` followed by `.decode()`: derive the
digest and serialize it with the salt. -/
def bcrypt_hashpw (password : String) (salt : Nat) : String :=
  serializeBcrypt ⟨salt, bcryptKdf password salt⟩

/-- `bcrypt.checkpw(password, hashed)`: parse the embedded salt, recompute
the digest and compare; `ValueError` on a malformed hashed form. -/
def bcrypt_checkpw (password hashed : String) : Except Unit Bool :=
  match parseBcrypt hashed.data with
  | none => .error ()
  | some h => .ok (bcryptKdf password h.salt = h.digest)

/-- `hash_password(password)` from `auth.py` lines 21-24, the fresh salt
drawn by `bcrypt.gensalt()` made an explicit parameter. -/
def hash_password (password : String) (salt : Nat) : String :=
  bcrypt_hashpw password salt

/-- `verify_password(plain_password, hashed_password)` from `auth.py`
lines 27-29. -/
def verify_password (plain_password hashed_password : String) :
    Except Unit Bool :=
  bcrypt_checkpw plain_password hashed_password

/-! ## Heap model of the claims dictionary (for the frame property of
`create_access_token`)

Python dicts are mutable objects; `data.copy()` on line 34 is what keeps
the caller's dict intact.  A small heap of dict objects makes the aliasing
explicit: a dict variable is an index into the heap. -/

/-- A heap of Python dict objects. -/
abbrev DictHeap := List Claims

/-- `d.copy()`: allocate a fresh dict with the same entries at the end of
the heap; returns the new heap and the fresh reference. -/
def pyDictCopy (h : DictHeap) (r : Nat) : DictHeap × Nat :=
  (h ++ [h.getD r []], h.length)

/-- `d.update(...)` restricted to a single key, in place. -/
def pyDictUpdate (h : DictHeap) (r : Nat) (k : String) (v : JValue) :
    DictHeap :=
  h.set r (setClaim (h.getD r []) k v)

/-- `create_access_token` (lines 32-37 of `auth.py`) with the dict
operations made explicit on the heap: `to_encode = data.copy()`, then
`to_encode.update(...)` with the expiration, then `jwt.encode(to_encode)`.
Returns the final heap together with the token. -/
def create_access_token_heap (h : DictHeap) (data : Nat)
    (expires_delta : Option Int) (now : Int) (key : String) :
    DictHeap × Token :=
  let copied := pyDictCopy h data
  let h1 := copied.1
  let to_encode := copied.2
  let delta := pyOrDefault expires_delta (ACCESS_TOKEN_EXPIRE_MINUTES * 60)
  let expire := now + delta
  let h2 := pyDictUpdate h1 to_encode "exp" (.num expire)
  (h2, ⟨h2.getD to_encode [], key⟩)

/-! ## Lemmas about the claims dictionary -/

lemma getClaim_map_overwrite (cs : Claims) (k k' : String) (v : JValue)
    (h : k ≠ k') :
    getClaim (cs.map (fun p => if p.1 = k then (k, v) else p)) k' =
      getClaim cs k' := by
  induction cs with
  | nil => rfl
  | cons p cs ih =>
    simp only [List.map_cons]
    unfold getClaim at ih ⊢
    rw [List.find?_cons, List.find?_cons]
    by_cases hp : p.1 = k
    · rw [if_pos hp]
      have h1 : decide ((k, v).1 = k') = false := by simp [h]
      have h2 : decide (p.1 = k') = false := by simp [hp, h]
      simp only [h1, h2]
      exact ih
    · rw [if_neg hp]
      by_cases hq : p.1 = k'
      · simp only [hq, decide_True]
      · have h2 : decide (p.1 = k') = false := by simp [hq]
        simp only [h2]
        exact ih

lemma getClaim_append_single_ne (cs : Claims) (k k' : String) (v : JValue)
    (h : k ≠ k') :
    getClaim (cs ++ [(k, v)]) k' = getClaim cs k' := by
  induction cs with
  | nil => simp [getClaim, List.find?_cons, h, Ne.symm h]
  | cons p cs ih =>
    by_cases hq : p.1 = k'
    · simp [getClaim, List.find?_cons, hq]
    · simp [getClaim, List.find?_cons, hq] at ih ⊢
      exact ih

/-- Reading any other key is unaffected by `setClaim`. -/
lemma getClaim_setClaim_ne (cs : Claims) (k k' : String) (v : JValue)
    (h : k ≠ k') :
    getClaim (setClaim cs k v) k' = getClaim cs k' := by
  unfold setClaim
  by_cases hany : cs.any (fun p => p.1 = k) = true
  · simp only [hany, if_true]
    exact getClaim_map_overwrite cs k k' v h
  · have hfalse : cs.any (fun p => p.1 = k) = false := by
      cases h2 : cs.any (fun p => p.1 = k) with
      | false => rfl
      | true => exact absurd h2 hany
    simp only [hfalse, Bool.false_eq_true, if_false]
    exact getClaim_append_single_ne cs k k' v h

lemma getClaim_map_overwrite_self (cs : Claims) (k : String) (v : JValue) :
    cs.any (fun p => p.1 = k) = true →
    getClaim (cs.map (fun p => if p.1 = k then (k, v) else p)) k = some v := by
  induction cs with
  | nil => intro h; simp at h
  | cons p cs ih =>
    intro h
    by_cases hp : p.1 = k
    · simp [getClaim, List.find?_cons, hp]
    · have h' : cs.any (fun p => p.1 = k) = true := by
        simpa [hp] using h
      have := ih h'
      simp [getClaim, List.find?_cons, hp] at this ⊢
      exact this

/-- Reading back the key just written by `setClaim`. -/
lemma getClaim_setClaim_self (cs : Claims) (k : String) (v : JValue) :
    getClaim (setClaim cs k v) k = some v := by
  unfold setClaim
  by_cases hany : cs.any (fun p => p.1 = k) = true
  · simp only [hany, if_true]
    exact getClaim_map_overwrite_self cs k v hany
  · have hfalse : cs.any (fun p => p.1 = k) = false := by
      cases h2 : cs.any (fun p => p.1 = k) with
      | false => rfl
      | true => exact absurd h2 hany
    simp only [hfalse, Bool.false_eq_true, if_false]
    have hnone : cs.find? (fun p => decide (p.1 = k)) = none := by
      rw [List.find?_eq_none]
      intro x hx hxk
      have hxk' : x.1 = k := by simpa using hxk
      have : cs.any (fun p => p.1 = k) = true :=
        List.any_eq_true.mpr ⟨x, hx, by simp [hxk']⟩
      rw [this] at hfalse
      exact absurd hfalse (by simp)
    unfold getClaim
    rw [List.find?_append, hnone]
    simp [List.find?_cons]


/-! ## Lemmas about the bcrypt model -/

lemma parseSaltRun_replicate (n acc : Nat) (ds : List Char) :
    parseSaltRun (List.replicate n 'a' ++ '$' :: ds) acc =
      some ⟨acc + n, ⟨ds⟩⟩ := by
  induction n generalizing acc with
  | zero => rfl
  | succ n ih =>
    have hstep : parseSaltRun (List.replicate (n + 1) 'a' ++ '$' :: ds) acc =
        parseSaltRun (List.replicate n 'a' ++ '$' :: ds) (acc + 1) := rfl
    rw [hstep, ih]
    have : acc + 1 + n = acc + (n + 1) := by omega
    rw [this]

/-- The serialisation round-trips through the parser: the salt and digest
embedded by `hashpw` are exactly what `checkpw` recovers. -/
lemma parseBcrypt_serialize (h : BcryptHash) :
    parseBcrypt (serializeBcrypt h).data = some h := by
  obtain ⟨salt, digest⟩ := h
  have hstep : parseBcrypt (serializeBcrypt ⟨salt, digest⟩).data =
      parseSaltRun (List.replicate salt 'a' ++ '$' :: digest.data) 0 := rfl
  rw [hstep, parseSaltRun_replicate]
  simp

/-- The modelled KDF is injective in the password at a fixed salt. -/
lemma bcryptKdf_inj (p q : String) (salt : Nat)
    (h : bcryptKdf p salt = bcryptKdf q salt) : p = q := by
  unfold bcryptKdf at h
  have hd : p.data.reverse ++ List.replicate salt 'x' =
      q.data.reverse ++ List.replicate salt 'x' := congrArg String.data h
  have hr : p.data.reverse = q.data.reverse := List.append_cancel_right hd
  have hdata : p.data = q.data := List.reverse_injective hr
  cases p
  cases q
  exact congrArg String.mk (by simpa using hdata)

/-- Characterisation of verification against a freshly produced hash:
it returns a boolean, true exactly for the hashed password. -/
lemma verify_hash_eq (p s : String) (salt : Nat) :
    verify_password p (hash_password s salt) = .ok (decide (p = s)) := by
  unfold verify_password bcrypt_checkpw hash_password bcrypt_hashpw
  rw [parseBcrypt_serialize]
  by_cases h : p = s
  · subst h
    simp
  · have hne : bcryptKdf p salt ≠ bcryptKdf s salt := fun he =>
      h (bcryptKdf_inj p s salt he)
    simp [h, hne]

/-- Two hashes of the same password under different salts are different
strings (the salt is embedded in the output). -/
lemma hash_password_salt_ne (s : String) (salt1 salt2 : Nat)
    (h : salt1 ≠ salt2) :
    hash_password s salt1 ≠ hash_password s salt2 := by
  intro he
  have hp := congrArg (fun str => parseBcrypt str.data) he
  simp only [hash_password, bcrypt_hashpw, parseBcrypt_serialize] at hp
  exact h (congrArg BcryptHash.salt (Option.some.inj hp))

/-! ## Lemmas about the dict heap -/

lemma dictHeap_getD_append_self (l : DictHeap) (x : Claims) :
    (l ++ [x]).getD l.length [] = x := by
  induction l with
  | nil => rfl
  | cons a l ih => simp [ih]

lemma dictHeap_set_append_self (l : DictHeap) (x y : Claims) :
    (l ++ [x]).set l.length y = l ++ [y] := by
  induction l with
  | nil => rfl
  | cons a l ih => simp [ih]

lemma dictHeap_getD_append_lt (l l' : DictHeap) (i : Nat)
    (hi : i < l.length) : (l ++ l').getD i [] = l.getD i [] := by
  induction l generalizing i with
  | nil => simp at hi
  | cons a l ih =>
    cases i with
    | zero => rfl
    | succ i =>
      have : i < l.length := by simpa using hi
      simpa using ih i this

/-- Decoding a freshly created token under the same key: expired exactly
when the verification clock is strictly past `now` plus the effective ttl
(the supplied delta when nonzero, the 24-hour default otherwise), else the
payload with the overwritten `exp` claim. -/
lemma decode_create (data : Claims) (ed : Option Int) (now_i now_v : Int)
    (key : String) :
    decode_access_token (create_access_token data ed now_i key) key now_v =
      if now_i + pyOrDefault ed (ACCESS_TOKEN_EXPIRE_MINUTES * 60) < now_v
      then
        .error ⟨401, "Token has expired"⟩
      else
        .ok (setClaim data "exp"
          (.num (now_i + pyOrDefault ed (ACCESS_TOKEN_EXPIRE_MINUTES * 60))))
      := by
  unfold create_access_token decode_access_token jwt_decode
  simp only [getClaim_setClaim_self]
  by_cases h : now_i + pyOrDefault ed (ACCESS_TOKEN_EXPIRE_MINUTES * 60) <
      now_v
  · simp [h]
  · simp [h]

/-! ## Claim theorems -/

/-- Claim C1: for every authenticated user and every allow-list of roles, the
guard produced by `require_role(allowed_roles)` fails with 403 carrying the
allowed-role list when the user's role is not a member of `allowed_roles`,
and otherwise returns that user's full record. -/
theorem C1_require_role_membership (allowed_roles : List UserRole)
    (db : UserDb) (tok : Token) (key : String) (now : Int) (user : User)
    (hauth : get_current_user db tok key now = .ok user) :
    (user.role ∉ allowed_roles →
      require_role allowed_roles db tok key now =
        .error ⟨403, forbiddenDetail allowed_roles⟩) ∧
    (user.role ∈ allowed_roles →
      require_role allowed_roles db tok key now = .ok user) := by
  constructor <;> intro h <;> simp [require_role, hauth, h]

/-- Claim C1 witness: `require_role([administrator])` rejects a manager with
403 carrying `['admin']` and accepts an administrator, returning the record. -/
theorem C1_witness :
    require_role [UserRole.ADMIN]
        [⟨"1", "alice", "a@x", "h", UserRole.MANAGER, 0⟩]
        (create_access_token [("sub", JValue.str "alice")] (some 10) 0 "k")
        "k" 5 =
      .error ⟨403, "Access denied. Required roles: ['admin']"⟩ ∧
    require_role [UserRole.ADMIN]
        [⟨"2", "bob", "b@x", "h", UserRole.ADMIN, 0⟩]
        (create_access_token [("sub", JValue.str "bob")] (some 10) 0 "k")
        "k" 5 =
      .ok ⟨"2", "bob", "b@x", "h", UserRole.ADMIN, 0⟩ :=
  ⟨(C1_require_role_membership [UserRole.ADMIN]
      [⟨"1", "alice", "a@x", "h", UserRole.MANAGER, 0⟩]
      (create_access_token [("sub", JValue.str "alice")] (some 10) 0 "k")
      "k" 5 ⟨"1", "alice", "a@x", "h", UserRole.MANAGER, 0⟩ rfl).1
      (by decide),
   (C1_require_role_membership [UserRole.ADMIN]
      [⟨"2", "bob", "b@x", "h", UserRole.ADMIN, 0⟩]
      (create_access_token [("sub", JValue.str "bob")] (some 10) 0 "k")
      "k" 5 ⟨"2", "bob", "b@x", "h", UserRole.ADMIN, 0⟩ rfl).2
      (by decide)⟩

/-- Claim C2 counterexample: the round trip is not the identity on every
claim set.  For `c = {exp: 0}` and ttl 1 issued at instant 5, verification
immediately after issuance succeeds but returns `{exp: 6}`: the caller's
`exp` field was overwritten by `create_access_token`, so `c`'s fields are
not all unchanged. -/
theorem C2_counterexample :
    decode_access_token
        (create_access_token [("exp", JValue.num 0)] (some 1) 5 "k") "k" 5 =
      .ok [("exp", JValue.num 6)] ∧
    getClaim [("exp", JValue.num 6)] "exp" ≠
      getClaim [("exp", JValue.num 0)] "exp" :=
  ⟨rfl, by decide⟩

/-- Claim C2 (amended): for every claim set `c` that does not already carry
an `exp` field and every ttl `t > 0`, verifying immediately after issuance
succeeds, the payload is `c` with the computed expiration appended, and every
field of `c` (i.e. every key other than `exp`) is returned unchanged. -/
theorem C2_roundtrip (c : Claims) (t now : Int) (key : String)
    (ht : 0 < t) (hexp : getClaim c "exp" = none) :
    decode_access_token (create_access_token c (some t) now key) key now =
      .ok (c ++ [("exp", JValue.num (now + t))]) ∧
    ∀ k, k ≠ "exp" →
      getClaim (c ++ [("exp", JValue.num (now + t))]) k = getClaim c k := by
  have hfind : c.find? (fun p => decide (p.1 = "exp")) = none := by
    unfold getClaim at hexp
    exact Option.map_eq_none'.mp hexp
  have hany : c.any (fun p => p.1 = "exp") = false := by
    cases h2 : c.any (fun p => p.1 = "exp") with
    | false => rfl
    | true =>
      obtain ⟨x, hx, hxk⟩ := List.any_eq_true.mp h2
      exact absurd hxk (List.find?_eq_none.mp hfind x hx)
  have hset : setClaim c "exp" (JValue.num (now + t)) =
      c ++ [("exp", JValue.num (now + t))] := by
    unfold setClaim
    simp [hany]
  constructor
  · rw [decode_create]
    have hdelta : pyOrDefault (some t) (ACCESS_TOKEN_EXPIRE_MINUTES * 60) =
        t := by
      simp [pyOrDefault, ht.ne']
    rw [hdelta]
    have hlt : ¬ (now + t < now) := by omega
    rw [if_neg hlt, hset]
  · intro k hk
    exact getClaim_append_single_ne c "exp" k (JValue.num (now + t))
      (Ne.symm hk)

/-- Claim C2 witness: a concrete round trip with `c = {sub: "alice"}`,
ttl 10, issued and verified at instant 0. -/
theorem C2_witness :
    decode_access_token
        (create_access_token [("sub", JValue.str "alice")] (some 10) 0 "k")
        "k" 0 =
      .ok ([("sub", JValue.str "alice")] ++ [("exp", JValue.num (0 + 10))]) :=
  (C2_roundtrip [("sub", JValue.str "alice")] 10 0 "k" (by decide) rfl).1

/-- The resolver never reads the token's `role` claim: overwriting it leaves
the result of `get_current_user` unchanged. -/
lemma get_current_user_set_role (db : UserDb) (tok : Token) (key : String)
    (now : Int) (rv : JValue) :
    get_current_user db ⟨setClaim tok.payload "role" rv, tok.signingKey⟩
        key now =
      get_current_user db tok key now := by
  unfold get_current_user decode_access_token jwt_decode
  simp only
  by_cases hk : tok.signingKey ≠ key
  · simp [hk]
  · simp only [hk, if_false]
    rw [getClaim_setClaim_ne _ _ _ _ (by decide : ("role" : String) ≠ "exp")]
    cases getClaim tok.payload "exp" with
    | none =>
      simp only
      rw [getClaim_setClaim_ne _ _ _ _
        (by decide : ("role" : String) ≠ "sub")]
    | some v =>
      cases v with
      | str s => rfl
      | num exp =>
        by_cases hlt : exp < now
        · simp [hlt]
        · simp only [hlt, if_false]
          rw [getClaim_setClaim_ne _ _ _ _
            (by decide : ("role" : String) ≠ "sub")]

/-- Claim C3 counterexample: `alice` was an administrator at issuance (the
token embeds `role: "admin"` and is still unexpired — it decodes
successfully), the store's role was then changed to manager, and the guard
for `{administrator}` rejects the token with 403: the decision followed the
store's current role, not the role at issuance time. -/
theorem C3_counterexample :
    decode_access_token
        (create_access_token
          [("sub", JValue.str "alice"), ("role", JValue.str "admin")]
          (some 100) 0 "k") "k" 5 =
      .ok [("sub", JValue.str "alice"), ("role", JValue.str "admin"),
           ("exp", JValue.num 100)] ∧
    require_role [UserRole.ADMIN]
        [⟨"1", "alice", "a@x", "h", UserRole.MANAGER, 0⟩]
        (create_access_token
          [("sub", JValue.str "alice"), ("role", JValue.str "admin")]
          (some 100) 0 "k") "k" 5 =
      .error ⟨403, "Access denied. Required roles: ['admin']"⟩ :=
  ⟨rfl, rfl⟩

/-- Claim C3 (amended): guard decisions with a still-unexpired token are
based on the store's role at request time, not the role at issuance: the
guard re-resolves the user record on every request, so a role change after
issuance takes effect immediately, and the token's embedded `role` claim is
never consulted (overwriting it changes nothing). -/
theorem C3_current_role (allowed_roles : List UserRole) (db : UserDb)
    (tok : Token) (key : String) (now : Int) (user : User)
    (hauth : get_current_user db tok key now = .ok user) :
    (require_role allowed_roles db tok key now =
      if user.role ∈ allowed_roles then .ok user
      else .error ⟨403, forbiddenDetail allowed_roles⟩) ∧
    ∀ rv : JValue,
      require_role allowed_roles db
          ⟨setClaim tok.payload "role" rv, tok.signingKey⟩ key now =
        require_role allowed_roles db tok key now := by
  constructor
  · by_cases hm : user.role ∈ allowed_roles <;>
      simp [require_role, hauth, hm]
  · intro rv
    unfold require_role
    rw [get_current_user_set_role]

/-- Claim C3 witness: the store currently holds `alice` as a manager, so a
valid token for `alice` is rejected by the `{administrator}` guard, whatever
role the token was issued with. -/
theorem C3_witness :
    require_role [UserRole.ADMIN]
        [⟨"1", "alice", "a@x", "h", UserRole.MANAGER, 0⟩]
        (create_access_token [("sub", JValue.str "alice")] (some 100) 0 "k")
        "k" 5 =
      (if UserRole.MANAGER ∈ [UserRole.ADMIN] then
        .ok ⟨"1", "alice", "a@x", "h", UserRole.MANAGER, 0⟩
      else .error ⟨403, forbiddenDetail [UserRole.ADMIN]⟩) :=
  (C3_current_role [UserRole.ADMIN]
    [⟨"1", "alice", "a@x", "h", UserRole.MANAGER, 0⟩]
    (create_access_token [("sub", JValue.str "alice")] (some 100) 0 "k")
    "k" 5 ⟨"1", "alice", "a@x", "h", UserRole.MANAGER, 0⟩ rfl).1

/-- Claim C4 counterexample: on a malformed hashed form the verifier raises
(bcrypt's `ValueError`, modelled as `Except.error`) instead of returning
false. -/
theorem C4_counterexample :
    verify_password "password" "notahash" = .error () ∧
    verify_password "password" "notahash" ≠ .ok false :=
  ⟨rfl, fun h => Except.noConfusion
    ((rfl : verify_password "password" "notahash" = .error ()).symm.trans h)⟩

/-- Claim C4 (amended): against a well-formed hashed form, `verify` returns
a boolean — false on any mismatch and never an exception for a wrong
password — while a malformed hashed form raises an error rather than
returning false. -/
theorem C4_verify_behaviour :
    (∀ (p s : String) (salt : Nat),
      verify_password p (hash_password s salt) = .ok (decide (p = s))) ∧
    verify_password "password" "notahash" = .error () :=
  ⟨fun p s salt => verify_hash_eq p s salt, rfl⟩

/-- Claim C5 counterexample: the claim is not true of every ttl.  At ttl
`t = 0`, `expires_delta or timedelta(...)` is falsy, so the source falls
back to the 24-hour default: one instant after `issued_at + 0` the token
verifies successfully (its `exp` is `issued_at + 86400`) instead of failing
with the expired-token kind. -/
theorem C5_counterexample :
    decode_access_token
        (create_access_token [("sub", JValue.str "alice")] (some 0) 0 "k")
        "k" 1 =
      .ok [("sub", JValue.str "alice"), ("exp", JValue.num 86400)] ∧
    decode_access_token
        (create_access_token [("sub", JValue.str "alice")] (some 0) 0 "k")
        "k" 1 ≠
      .error ⟨401, "Token has expired"⟩ := by
  constructor
  · rfl
  · intro h
    exact Except.noConfusion
      ((rfl : decode_access_token
          (create_access_token [("sub", JValue.str "alice")] (some 0) 0 "k")
          "k" 1 =
        .ok [("sub", JValue.str "alice"),
             ("exp", JValue.num 86400)]).symm.trans h)

/-- Claim C5 (amended): verifying a token at any instant strictly after
`issued_at` plus the effective ttl fails with the expired-token error kind,
surfaced as a 401 authentication failure — where the effective ttl is the
supplied ttl when nonzero, and the 24-hour default when the ttl is absent
or zero (Python's `or` sends the falsy `timedelta(0)` to the default). -/
theorem C5_expired_after_effective_ttl (data : Claims) (ed : Option Int)
    (now_i now_v : Int) (key : String)
    (h : now_i + pyOrDefault ed (ACCESS_TOKEN_EXPIRE_MINUTES * 60) < now_v) :
    decode_access_token (create_access_token data ed now_i key) key now_v =
      .error ⟨401, "Token has expired"⟩ := by
  rw [decode_create, if_pos h]

/-- Claim C5 witness: a token issued at instant 0 with ttl 10 is rejected as
expired at instant 11, and a ttl-0 token (effective ttl 24 hours) is
rejected at instant 86401. -/
theorem C5_witness :
    decode_access_token
        (create_access_token [("sub", JValue.str "alice")] (some 10) 0 "k")
        "k" 11 =
      .error ⟨401, "Token has expired"⟩ ∧
    decode_access_token
        (create_access_token [("sub", JValue.str "alice")] (some 0) 0 "k")
        "k" 86401 =
      .error ⟨401, "Token has expired"⟩ :=
  ⟨C5_expired_after_effective_ttl [("sub", JValue.str "alice")] (some 10) 0
      11 "k" (by decide),
   C5_expired_after_effective_ttl [("sub", JValue.str "alice")] (some 0) 0
      86401 "k" (by decide)⟩

/-- Claim C6: a token issued under one signing key fails verification under
any different key with the invalid-token error kind (bad signature) — not
with success and not with the expired-token kind — whatever the claim set,
ttl and verification instant. -/
theorem C6_wrong_key (data : Claims) (ed : Option Int) (now_i now_v : Int)
    (k1 k2 : String) (h : k1 ≠ k2) :
    decode_access_token (create_access_token data ed now_i k1) k2 now_v =
      .error ⟨401, "Invalid token"⟩ := by
  unfold create_access_token decode_access_token jwt_decode
  simp [h]

/-- Claim C6 witness: a token signed with `"k1"` is rejected as invalid
under `"k2"`, even at an instant where it would also be expired. -/
theorem C6_witness :
    decode_access_token
        (create_access_token [("sub", JValue.str "alice")] (some 10) 0 "k1")
        "k2" 100 =
      .error ⟨401, "Invalid token"⟩ :=
  C6_wrong_key [("sub", JValue.str "alice")] (some 10) 0 100 "k1" "k2"
    (by decide)

/-- Claim C7: hashing the same secret with two different (fresh) salts
produces two different outputs, and both verify against the secret. -/
theorem C7_hash_verify_fresh_salt (s : String) (salt1 salt2 : Nat)
    (h : salt1 ≠ salt2) :
    hash_password s salt1 ≠ hash_password s salt2 ∧
    verify_password s (hash_password s salt1) = .ok true ∧
    verify_password s (hash_password s salt2) = .ok true := by
  refine ⟨hash_password_salt_ne s salt1 salt2 h, ?_, ?_⟩ <;>
    · rw [verify_hash_eq]
      simp

/-- Claim C7 witness: two concrete hashes of `"pw"` under salts 0 and 1. -/
theorem C7_witness :
    hash_password "pw" 0 ≠ hash_password "pw" 1 ∧
    verify_password "pw" (hash_password "pw" 0) = .ok true ∧
    verify_password "pw" (hash_password "pw" 1) = .ok true :=
  C7_hash_verify_fresh_salt "pw" 0 1 (by decide)

/-- Claim C8: the resolver verifies the token first (propagating any
verification failure unchanged), then fails with 401 "Invalid token payload"
when the subject claim is absent, then looks the subject up in the store by
username and fails with 401 "User not found" when no record matches; on
success it returns the full persisted user record. -/
theorem C8_resolve_chain :
    (∀ (db : UserDb) (tok : Token) (key : String) (now : Int)
        (e : HTTPException),
      decode_access_token tok key now = .error e →
      get_current_user db tok key now = .error e) ∧
    (∀ (db : UserDb) (tok : Token) (key : String) (now : Int) (p : Claims),
      decode_access_token tok key now = .ok p →
      getClaim p "sub" = none →
      get_current_user db tok key now =
        .error ⟨401, "Invalid token payload"⟩) ∧
    (∀ (db : UserDb) (tok : Token) (key : String) (now : Int) (p : Claims)
        (v : JValue),
      decode_access_token tok key now = .ok p →
      getClaim p "sub" = some v → v.falsy = false →
      find_one_username db v = none →
      get_current_user db tok key now = .error ⟨401, "User not found"⟩) ∧
    (∀ (db : UserDb) (tok : Token) (key : String) (now : Int) (p : Claims)
        (v : JValue) (u : User),
      decode_access_token tok key now = .ok p →
      getClaim p "sub" = some v → v.falsy = false →
      find_one_username db v = some u →
      get_current_user db tok key now = .ok u) := by
  refine ⟨?_, ?_, ?_, ?_⟩
  · intro db tok key now e hd
    simp [get_current_user, hd]
  · intro db tok key now p hd hs
    simp [get_current_user, hd, hs]
  · intro db tok key now p v hd hs hf hl
    simp [get_current_user, hd, hs, hf, hl]
  · intro db tok key now p v u hd hs hf hl
    simp [get_current_user, hd, hs, hf, hl]

/-- Claim C8 witness: the four stages at concrete inputs — a bad signature
propagates, a payload without `sub` is an invalid payload, an unknown
username is not found, and a known one resolves to the stored record. -/
theorem C8_witness :
    get_current_user [] ⟨[("sub", JValue.str "alice")], "k1"⟩ "k2" 0 =
      .error ⟨401, "Invalid token"⟩ ∧
    get_current_user [] ⟨[("role", JValue.str "admin")], "k"⟩ "k" 0 =
      .error ⟨401, "Invalid token payload"⟩ ∧
    get_current_user [] ⟨[("sub", JValue.str "alice")], "k"⟩ "k" 0 =
      .error ⟨401, "User not found"⟩ ∧
    get_current_user [⟨"1", "alice", "a@x", "h", UserRole.ADMIN, 0⟩]
        ⟨[("sub", JValue.str "alice")], "k"⟩ "k" 0 =
      .ok ⟨"1", "alice", "a@x", "h", UserRole.ADMIN, 0⟩ :=
  ⟨C8_resolve_chain.1 [] ⟨[("sub", JValue.str "alice")], "k1"⟩ "k2" 0
      ⟨401, "Invalid token"⟩ rfl,
   C8_resolve_chain.2.1 [] ⟨[("role", JValue.str "admin")], "k"⟩ "k" 0
      [("role", JValue.str "admin")] rfl rfl,
   C8_resolve_chain.2.2.1 [] ⟨[("sub", JValue.str "alice")], "k"⟩ "k" 0
      [("sub", JValue.str "alice")] (JValue.str "alice") rfl rfl rfl rfl,
   C8_resolve_chain.2.2.2 [⟨"1", "alice", "a@x", "h", UserRole.ADMIN, 0⟩]
      ⟨[("sub", JValue.str "alice")], "k"⟩ "k" 0
      [("sub", JValue.str "alice")] (JValue.str "alice")
      ⟨"1", "alice", "a@x", "h", UserRole.ADMIN, 0⟩ rfl rfl rfl rfl⟩

/-- Claim C9: a verified payload whose subject claim is the empty string is
rejected with the same 401 "Invalid token payload" failure as an absent
subject, and the store is never queried (the result is the same for every
store). -/
theorem C9_empty_subject (db db' : UserDb) (tok : Token) (key : String)
    (now : Int) (p : Claims)
    (hdec : decode_access_token tok key now = .ok p)
    (hsub : getClaim p "sub" = some (JValue.str "")) :
    get_current_user db tok key now =
      .error ⟨401, "Invalid token payload"⟩ ∧
    get_current_user db tok key now = get_current_user db' tok key now := by
  have h1 : ∀ d : UserDb, get_current_user d tok key now =
      .error ⟨401, "Invalid token payload"⟩ := by
    intro d
    simp [get_current_user, hdec, hsub, JValue.falsy]
  exact ⟨h1 db, (h1 db).trans (h1 db').symm⟩

/-- Claim C9 witness: an empty-string subject with a store that does hold a
user with the empty username — still rejected, and equal to the result on
the empty store. -/
theorem C9_witness :
    get_current_user [⟨"1", "", "a@x", "h", UserRole.ADMIN, 0⟩]
        ⟨[("sub", JValue.str "")], "k"⟩ "k" 0 =
      .error ⟨401, "Invalid token payload"⟩ ∧
    get_current_user [⟨"1", "", "a@x", "h", UserRole.ADMIN, 0⟩]
        ⟨[("sub", JValue.str "")], "k"⟩ "k" 0 =
      get_current_user [] ⟨[("sub", JValue.str "")], "k"⟩ "k" 0 :=
  C9_empty_subject [⟨"1", "", "a@x", "h", UserRole.ADMIN, 0⟩] []
    ⟨[("sub", JValue.str "")], "k"⟩ "k" 0 [("sub", JValue.str "")] rfl rfl

/-- Claim C10: `create_access_token` leaves the caller's claims dictionary
unchanged — it copies the dict before adding the expiration field, so the
caller-visible dict after the call equals the one before, and the token
payload is the copy with `exp` overwritten. -/
theorem C10_caller_dict_unchanged (h : DictHeap) (data : Nat)
    (ed : Option Int) (now : Int) (key : String) (hlt : data < h.length) :
    (create_access_token_heap h data ed now key).1.getD data [] =
      h.getD data [] ∧
    (create_access_token_heap h data ed now key).2 =
      create_access_token (h.getD data []) ed now key := by
  unfold create_access_token_heap pyDictCopy pyDictUpdate
  simp only [dictHeap_getD_append_self, dictHeap_set_append_self]
  constructor
  · exact dictHeap_getD_append_lt h _ data hlt
  · rfl

/-- Claim C10 witness: a concrete one-dict heap is unchanged at the caller's
reference by the call. -/
theorem C10_witness :
    (create_access_token_heap [[("sub", JValue.str "alice")]] 0 (some 10) 0
        "k").1.getD 0 [] =
      ([[("sub", JValue.str "alice")]] : DictHeap).getD 0 [] :=
  (C10_caller_dict_unchanged [[("sub", JValue.str "alice")]] 0 (some 10) 0
    "k" (by decide)).1
